import Mathlib

/-!
Shallow embedding of `src/qrupay/src/pages/Dashboard.tsx` (the QRupay
profile dashboard screen) and verification of its specified properties.

The component is embedded as pure functions over an explicit display
state together with an effect record (toasts, console errors,
navigations, fetch count, encoder calls).  External collaborators are
parameters: the QR encoder is a function argument, the backend fetch
result is passed in as data.
-/

namespace Qrupay

/-- The `MedicalProfile` interface of Dashboard.tsx (lines 13-24):
the stored profile row shape, with `string | null` fields embedded
as `Option String`. -/
structure MedicalProfile where
  id : String
  blood_group : Option String
  allergies : Option String
  chronic_conditions : Option String
  medications : Option String
  emergency_contact_name : String
  emergency_contact_phone : String
  emergency_contact_relation : Option String
  additional_notes : Option String
  qr_code_url : Option String
  deriving Repr, DecidableEq

/-- A supabase error value: only the `code` field is inspected by the
component; `message` stands for the rest of the error object. -/
structure SupabaseError where
  code : String
  message : String
  deriving Repr, DecidableEq

/-- The data-and-error pair returned by the supabase
`.from(...).select(...).eq(...).single()` call. -/
structure FetchResult where
  data : Option MedicalProfile
  error : Option SupabaseError
  deriving Repr, DecidableEq

/-- The color sub-object of the options passed to `QRCode.toDataURL`. -/
structure QRColor where
  dark : String
  light : String
  deriving Repr, DecidableEq

/-- The options object passed to `QRCode.toDataURL` (width, margin,
two-color palette). -/
structure QROptions where
  width : Nat
  margin : Nat
  color : QRColor
  deriving Repr, DecidableEq

/-- The constant options literal of Dashboard.tsx lines 76-81. -/
def qrOptions : QROptions :=
  ⟨256, 2, ⟨"#dc2626", "#ffffff"⟩⟩

/-- One toast notification as produced by the toast call. -/
structure Toast where
  title : String
  description : String
  variant : String
  deriving Repr, DecidableEq

/-- The toast produced in the catch branch of `fetchMedicalProfile`
(lines 62-66). -/
def errorToast : Toast :=
  ⟨"Error", "Failed to load medical profile", "destructive"⟩

/-- The component display state: the three `useState` hooks of
Dashboard.tsx lines 30-32. -/
structure DashboardState where
  medicalProfile : Option MedicalProfile
  qrCodeDataUrl : String
  loading : Bool
  deriving Repr, DecidableEq

/-- Initial hook values: null profile, empty data URL, loading true
(lines 30-32). -/
def initialState : DashboardState :=
  ⟨none, "", true⟩

/-- Observable side effects of one mount of the component. -/
structure Effects where
  toasts : List Toast
  consoleErrors : List String
  navigations : List String
  fetchCalls : Nat
  encoderCalls : List (String × QROptions)
  deriving Repr, DecidableEq

/-- No side effects. -/
def noEffects : Effects :=
  ⟨[], [], [], 0, []⟩

/-- An authenticated user as provided by `useAuth()`. -/
structure User where
  id : String
  email : String
  deriving Repr, DecidableEq

/-- The emergency-view URL template string built on line 74: the
current origin, then the literal /emergency/ segment, then the profile
id. -/
def emergencyUrl (origin profileId : String) : String :=
  origin ++ "/emergency/" ++ profileId

/-- Embedding of `generateQRCode` (lines 72-87): builds the emergency URL, calls the
external encoder with the fixed options, stores the data URL on
success, and on failure only logs (no toast, no state change).  The
encoder is a parameter; its call is recorded in the effects. -/
def generateQRCode (origin : String)
    (encode : String → QROptions → Except String String)
    (profileId : String) (s : DashboardState) : DashboardState × Effects :=
  let url := emergencyUrl origin profileId
  match encode url qrOptions with
  | Except.ok qrDataUrl =>
      ({ s with qrCodeDataUrl := qrDataUrl },
       { noEffects with encoderCalls := [(url, qrOptions)] })
  | Except.error e =>
      (s,
       { noEffects with
           encoderCalls := [(url, qrOptions)],
           consoleErrors := ["Error generating QR code: " ++ e] })

/-- Whether the fetch result makes the guard on line 50
true, i.e. an error is present and its code is not PGRST116, so the
error is thrown. -/
def isThrownError (res : FetchResult) : Bool :=
  match res.error with
  | some e => e.code != "PGRST116"
  | none => false

/-- Embedding of `fetchMedicalProfile` (lines 42-70): throws (and catches) any error
whose code is not PGRST116, producing a console error and a destructive
toast; otherwise stores the returned row (if any) and, when the row has
a truthy `id`, runs `generateQRCode`; `loading` is set false in the
`finally` on every path. -/
def fetchMedicalProfile (origin : String)
    (encode : String → QROptions → Except String String)
    (res : FetchResult) (s : DashboardState) : DashboardState × Effects :=
  if isThrownError res then
    ({ s with loading := false },
     { noEffects with
         toasts := [errorToast],
         consoleErrors := ["Error fetching medical profile"] })
  else
    match res.data with
    | some d =>
        let s1 := { s with medicalProfile := some d }
        if d.id != "" then
          let (s2, eff) := generateQRCode origin encode d.id s1
          ({ s2 with loading := false }, eff)
        else
          ({ s1 with loading := false }, noEffects)
    | none => ({ s with loading := false }, noEffects)

/-- The mount effect (lines 34-40): with no user, navigate to
`/auth` and return without fetching; with a user, issue the single
fetch and process its result. -/
def mountDashboard (origin : String)
    (encode : String → QROptions → Except String String)
    (user : Option User) (res : FetchResult) : DashboardState × Effects :=
  match user with
  | none => (initialState, { noEffects with navigations := ["/auth"] })
  | some _ =>
      let (s, eff) := fetchMedicalProfile origin encode res initialState
      (s, { eff with fetchCalls := 1 })

/-- Abstract render-tree nodes: labelled field displays, plain text,
buttons with their navigation target, the external `QRCodeGenerator`
component, and the external `MedicalProfileSummary` component. -/
inductive RenderNode where
  | text (s : String)
  | field (label : String) (value : String)
  | button (label : String) (navTarget : String)
  | qrGenerator (profileId : String) (contactName : String)
      (contactPhone : String)
  | profileSummary (p : MedicalProfile)
  deriving Repr, DecidableEq

/-- The conditional blood-group block (lines 160-165): rendered only
when `medicalProfile.blood_group` is truthy. -/
def bloodGroupBlock (bg : Option String) : List RenderNode :=
  match bg with
  | some v => if v != "" then [RenderNode.field "Blood Group" v] else []
  | none => []

/-- The header buttons (lines 117-129): Sign Out (which signs out and
navigates home) and Home. -/
def headerSection : List RenderNode :=
  [RenderNode.button "Sign Out" "/", RenderNode.button "Home" "/"]

/-- The Profile Overview card content (lines 146-178): the email, then
either the emergency-contact and blood-group blocks, or the empty-state
message with its Create Medical Profile button. -/
def profileOverviewSection (email : String) (mp : Option MedicalProfile) :
    List RenderNode :=
  [RenderNode.field "Email" email] ++
    match mp with
    | some p =>
        [RenderNode.field "Emergency Contact" p.emergency_contact_name,
         RenderNode.text p.emergency_contact_phone] ++
          bloodGroupBlock p.blood_group
    | none =>
        [RenderNode.text "No medical profile found",
         RenderNode.button "Create Medical Profile" "/profile/edit"]

/-- The QR card (lines 182-202): the `QRCodeGenerator` component when
`medicalProfile?.id` is truthy, else the placeholder card. -/
def qrSection (mp : Option MedicalProfile) : List RenderNode :=
  match mp with
  | some p =>
      if p.id != "" then
        [RenderNode.qrGenerator p.id p.emergency_contact_name
          p.emergency_contact_phone]
      else
        [RenderNode.text
          "Create a medical profile to generate your emergency QR code"]
  | none =>
      [RenderNode.text
        "Create a medical profile to generate your emergency QR code"]

/-- The Medical Profile Summary block (lines 206-214), rendered only
when a profile is present; the whole record is passed to the external
component. -/
def summarySection (mp : Option MedicalProfile) : List RenderNode :=
  match mp with
  | some p => [RenderNode.profileSummary p]
  | none => []

/-- The Actions row (lines 217-247): the edit/create button, the
Preview Emergency View button (profile only), and the medication
reminders button. -/
def actionsSection (mp : Option MedicalProfile) : List RenderNode :=
  (match mp with
   | some _ => [RenderNode.button "Edit Medical Profile" "/profile/edit"]
   | none => [RenderNode.button "Create Medical Profile" "/profile/edit"]) ++
  (match mp with
   | some p =>
       [RenderNode.button "Preview Emergency View" ("/emergency/" ++ p.id)]
   | none => []) ++
  [RenderNode.button "💊 Medication Reminders" "/medications"]

/-- The render function of the component (lines 98-250): the loading
screen while `loading` is true, else the header, overview card, QR
card, summary and actions. -/
def renderDashboard (email : String) (s : DashboardState) :
    List RenderNode :=
  if s.loading then
    [RenderNode.text "Loading..."]
  else
    headerSection ++ profileOverviewSection email s.medicalProfile ++
      qrSection s.medicalProfile ++ summarySection s.medicalProfile ++
      actionsSection s.medicalProfile

/-- A button that navigates to the profile-creation page. -/
def isCreateProfileButton : RenderNode → Bool
  | RenderNode.button label target =>
      label == "Create Medical Profile" && target == "/profile/edit"
  | _ => false

/-- Number of create-profile actions in a rendered tree. -/
def createProfileButtonCount (ns : List RenderNode) : Nat :=
  (ns.filter isCreateProfileButton).length

/-- Nodes that display profile content: emergency contact or blood
group fields, the QR component, or the profile summary. -/
def isProfileContent : RenderNode → Bool
  | RenderNode.field l _ => l == "Emergency Contact" || l == "Blood Group"
  | RenderNode.qrGenerator _ _ _ => true
  | RenderNode.profileSummary _ => true
  | _ => false

/-- Erase all blood-group information from a render tree: drop the
blood-group field node and scrub the blood group from the record passed
to the summary component.  Used to state noninterference of the
remaining display. -/
def withoutBloodGroup (ns : List RenderNode) : List RenderNode :=
  (ns.filter fun n =>
      match n with
      | RenderNode.field l _ => l != "Blood Group"
      | _ => true).map fun n =>
    match n with
    | RenderNode.profileSummary p =>
        RenderNode.profileSummary { p with blood_group := none }
    | m => m

/-- A sample stored profile with id `abc123`. -/
def sampleProfile : MedicalProfile :=
  ⟨"abc123", some "O+", none, none, some "aspirin", "Jane Roe",
    "555-0100", some "sister", none, none⟩

/-- A sample authenticated user. -/
def sampleUser : User :=
  ⟨"user-1", "jane@example.com"⟩

/-- An encoder that always succeeds. -/
def okEncoder : String → QROptions → Except String String :=
  fun u _ => Except.ok ("data:image/png;base64," ++ u)

/-- An encoder that always fails. -/
def failEncoder : String → QROptions → Except String String :=
  fun _ _ => Except.error "boom"

/-! ## Helper lemmas -/

/-- Both branches of generateQRCode record exactly one encoder call,
with the derived URL and the fixed options. -/
theorem generateQRCode_encoderCalls (origin : String)
    (encode : String → QROptions → Except String String)
    (profileId : String) (s : DashboardState) :
    (generateQRCode origin encode profileId s).2.encoderCalls
      = [(emergencyUrl origin profileId, qrOptions)] := by
  cases hE : encode (emergencyUrl origin profileId) qrOptions <;>
    simp [generateQRCode, hE]

/-- Neither branch of generateQRCode produces a toast. -/
theorem generateQRCode_toasts (origin : String)
    (encode : String → QROptions → Except String String)
    (profileId : String) (s : DashboardState) :
    (generateQRCode origin encode profileId s).2.toasts = [] := by
  cases hE : encode (emergencyUrl origin profileId) qrOptions <;>
    simp [generateQRCode, hE, noEffects]

/-! ## Claim theorems -/

/-- Claim C1: for every profile record with a non-empty id returned by
the fetch, the payload handed to the QR encoder is exactly the current
origin, then /emergency/, then the id, whatever the optional fields
hold. -/
theorem qr_payload_is_origin_emergency_id (origin : String)
    (encode : String → QROptions → Except String String) (u : User)
    (p : MedicalProfile) (h : p.id ≠ "") :
    ((mountDashboard origin encode (some u)
        ⟨some p, none⟩).2.encoderCalls.map Prod.fst)
      = [origin ++ "/emergency/" ++ p.id] := by
  have hb : (p.id != "") = true := by simpa [bne] using h
  simp [mountDashboard, fetchMedicalProfile, isThrownError, hb,
    generateQRCode_encoderCalls, emergencyUrl]

/-- Witness for C1 at the sample profile with id abc123. -/
theorem qr_payload_is_origin_emergency_id_witness :
    sampleProfile.id ≠ "" ∧
    ((mountDashboard "https://qrupay.app" okEncoder (some sampleUser)
        ⟨some sampleProfile, none⟩).2.encoderCalls.map Prod.fst)
      = ["https://qrupay.app" ++ "/emergency/" ++ sampleProfile.id] :=
  ⟨by decide,
   qr_payload_is_origin_emergency_id "https://qrupay.app" okEncoder
     sampleUser sampleProfile (by decide)⟩

/-- Claim C6: mounting with no session only navigates to the sign-in
page: the state is left at its initial value, no fetch and no encoder
call is issued, and the (loading) render of that sole reachable state
contains no profile content. -/
theorem unauthenticated_redirects_never_renders (origin email : String)
    (encode : String → QROptions → Except String String)
    (res : FetchResult) :
    mountDashboard origin encode none res
      = (initialState, { noEffects with navigations := ["/auth"] }) ∧
    (mountDashboard origin encode none res).2.fetchCalls = 0 ∧
    (mountDashboard origin encode none res).2.encoderCalls = [] ∧
    (renderDashboard email
        (mountDashboard origin encode none res).1).all
      (fun n => !isProfileContent n) = true :=
  ⟨rfl, rfl, rfl, rfl⟩

/-- Claim C8: every QR derivation calls the external encoder once, on
the derived URL, with the constant options: width 256, margin 2, and a
palette of two distinct colors. -/
theorem encoder_called_with_fixed_options (origin : String)
    (encode : String → QROptions → Except String String)
    (profileId : String) (s : DashboardState) :
    (generateQRCode origin encode profileId s).2.encoderCalls
      = [(origin ++ "/emergency/" ++ profileId, qrOptions)] ∧
    qrOptions.width = 256 ∧ qrOptions.margin = 2 ∧
    qrOptions.color.dark ≠ qrOptions.color.light :=
  ⟨generateQRCode_encoderCalls origin encode profileId s, rfl, rfl,
   by decide⟩

/-- Claim C9: the payload derivation is a deterministic function of the
origin and the id: any two invocations, whatever the encoder or the
prior state, record the same single payload string. -/
theorem derivation_deterministic (origin profileId : String)
    (e1 e2 : String → QROptions → Except String String)
    (s1 s2 : DashboardState) :
    (generateQRCode origin e1 profileId s1).2.encoderCalls.map Prod.fst
      = (generateQRCode origin e2 profileId
          s2).2.encoderCalls.map Prod.fst ∧
    (generateQRCode origin e1 profileId s1).2.encoderCalls.map Prod.fst
      = [emergencyUrl origin profileId] := by
  simp [generateQRCode_encoderCalls]

/-- Claim C2: a fetch that errors with the no-rows code PGRST116 and
returns no data behaves exactly like the no-stored-profile outcome:
same final state and same effects (in particular no toast), the
profile stays null, and the rendered screen is the empty-profile
display. -/
theorem no_rows_error_is_expected_absence (origin email msg : String)
    (encode : String → QROptions → Except String String) (u : User) :
    mountDashboard origin encode (some u)
        ⟨none, some ⟨"PGRST116", msg⟩⟩
      = mountDashboard origin encode (some u) ⟨none, none⟩ ∧
    (mountDashboard origin encode (some u)
        ⟨none, some ⟨"PGRST116", msg⟩⟩).2.toasts = [] ∧
    (mountDashboard origin encode (some u)
        ⟨none, some ⟨"PGRST116", msg⟩⟩).1.medicalProfile = none ∧
    RenderNode.text "No medical profile found" ∈
      renderDashboard email
        (mountDashboard origin encode (some u)
          ⟨none, some ⟨"PGRST116", msg⟩⟩).1 := by
  refine ⟨rfl, rfl, rfl, ?_⟩
  simp [mountDashboard, fetchMedicalProfile, isThrownError,
    renderDashboard, initialState, headerSection,
    profileOverviewSection, qrSection, summarySection, actionsSection]

/-- Claim C3: a fetch error with any code other than PGRST116 yields
exactly one destructive toast, no encoder call at all, and a single
fetch (no retry), whatever data came with the error. -/
theorem generic_error_toast_no_qr (origin : String)
    (encode : String → QROptions → Except String String) (u : User)
    (d : Option MedicalProfile) (e : SupabaseError)
    (h : e.code ≠ "PGRST116") :
    (mountDashboard origin encode (some u) ⟨d, some e⟩).2.toasts
      = [errorToast] ∧
    errorToast.variant = "destructive" ∧
    (mountDashboard origin encode (some u) ⟨d, some e⟩).2.encoderCalls
      = [] ∧
    (mountDashboard origin encode (some u) ⟨d, some e⟩).2.fetchCalls
      = 1 := by
  have hb : (e.code != "PGRST116") = true := by simpa [bne] using h
  refine ⟨?_, rfl, ?_, ?_⟩ <;>
    simp [mountDashboard, fetchMedicalProfile, isThrownError, hb,
      noEffects]

/-- Witness for C3 at a concrete server error. -/
theorem generic_error_toast_no_qr_witness :
    (SupabaseError.mk "500" "boom").code ≠ "PGRST116" ∧
    ((mountDashboard "https://qrupay.app" okEncoder (some sampleUser)
        ⟨none, some ⟨"500", "boom"⟩⟩).2.toasts = [errorToast] ∧
      errorToast.variant = "destructive" ∧
      (mountDashboard "https://qrupay.app" okEncoder (some sampleUser)
        ⟨none, some ⟨"500", "boom"⟩⟩).2.encoderCalls = [] ∧
      (mountDashboard "https://qrupay.app" okEncoder (some sampleUser)
        ⟨none, some ⟨"500", "boom"⟩⟩).2.fetchCalls = 1) :=
  ⟨by decide,
   generic_error_toast_no_qr "https://qrupay.app" okEncoder sampleUser
     none ⟨"500", "boom"⟩ (by decide)⟩

/-- Counterexample to C4: after a mount with a session and no stored
row, the rendered screen contains two create-profile buttons, not
exactly one (the empty-state card button and the actions-row button
both navigate to the profile-edit page). -/
theorem single_create_action_counterexample :
    createProfileButtonCount (renderDashboard "jane@example.com"
      (mountDashboard "https://qrupay.app" okEncoder (some sampleUser)
        ⟨none, none⟩).1) ≠ 1 := by decide

/-- Claim C4 (amended): whenever the fetch returns no row, the
rendered screen exposes exactly two create-profile actions, both
navigating to the profile-creation page. -/
theorem two_create_actions_when_empty (origin email : String)
    (encode : String → QROptions → Except String String) (u : User)
    (res : FetchResult) (h : res.data = none) :
    createProfileButtonCount (renderDashboard email
      (mountDashboard origin encode (some u) res).1) = 2 := by
  obtain ⟨d, e⟩ := res
  cases h
  simp only [mountDashboard, fetchMedicalProfile]
  split <;>
    simp [renderDashboard, initialState, headerSection,
      profileOverviewSection, qrSection, summarySection,
      actionsSection, createProfileButtonCount, isCreateProfileButton]

/-- Witness for the amended C4 at a concrete empty fetch result. -/
theorem two_create_actions_when_empty_witness :
    (FetchResult.mk none none).data = none ∧
    createProfileButtonCount (renderDashboard "jane@example.com"
      (mountDashboard "https://qrupay.app" okEncoder (some sampleUser)
        ⟨none, none⟩).1) = 2 :=
  ⟨rfl,
   two_create_actions_when_empty "https://qrupay.app"
     "jane@example.com" okEncoder sampleUser ⟨none, none⟩ rfl⟩

/-- Claim C7: when the encoder fails for a fetched profile with a
non-empty id, the QR data URL keeps its initial empty value, the
profile stays loaded, and the only effects are the single fetch, the
single encoder attempt (no retry) and a console log: no toast. -/
theorem qr_encode_failure_silent (origin : String) (u : User)
    (p : MedicalProfile) (msg : String) (h : p.id ≠ "") :
    (mountDashboard origin (fun _ _ => Except.error msg) (some u)
        ⟨some p, none⟩).1
      = ⟨some p, "", false⟩ ∧
    (mountDashboard origin (fun _ _ => Except.error msg) (some u)
        ⟨some p, none⟩).2
      = { noEffects with
            fetchCalls := 1,
            encoderCalls := [(emergencyUrl origin p.id, qrOptions)],
            consoleErrors := ["Error generating QR code: " ++ msg] } := by
  have hb : (p.id != "") = true := by simpa [bne] using h
  constructor <;>
    simp [mountDashboard, fetchMedicalProfile, isThrownError, hb,
      generateQRCode, initialState, noEffects]

/-- Witness for C7 at the sample profile and a failing encoder. -/
theorem qr_encode_failure_silent_witness :
    sampleProfile.id ≠ "" ∧
    ((mountDashboard "https://qrupay.app"
        (fun _ _ => Except.error "boom") (some sampleUser)
        ⟨some sampleProfile, none⟩).1
      = ⟨some sampleProfile, "", false⟩ ∧
     (mountDashboard "https://qrupay.app"
        (fun _ _ => Except.error "boom") (some sampleUser)
        ⟨some sampleProfile, none⟩).2
      = { noEffects with
            fetchCalls := 1,
            encoderCalls :=
              [(emergencyUrl "https://qrupay.app" sampleProfile.id,
                qrOptions)],
            consoleErrors := ["Error generating QR code: " ++ "boom"] }) :=
  ⟨by decide,
   qr_encode_failure_silent "https://qrupay.app" sampleUser
     sampleProfile "boom" (by decide)⟩

/-- Claim C10: a fetch failure other than no-rows leaves the display
state at its initial values except loading: profile null and QR data
URL empty, so the screen renders exactly as in the no-row case, with
its create-profile call to action; the toast is the only difference in
effects. -/
theorem fetch_failure_state_atomic (origin email : String)
    (encode : String → QROptions → Except String String) (u : User)
    (d : Option MedicalProfile) (e : SupabaseError)
    (h : e.code ≠ "PGRST116") :
    (mountDashboard origin encode (some u) ⟨d, some e⟩).1
      = ⟨none, "", false⟩ ∧
    renderDashboard email
        (mountDashboard origin encode (some u) ⟨d, some e⟩).1
      = renderDashboard email
          (mountDashboard origin encode (some u) ⟨none, none⟩).1 ∧
    RenderNode.button "Create Medical Profile" "/profile/edit" ∈
      renderDashboard email
        (mountDashboard origin encode (some u) ⟨d, some e⟩).1 ∧
    (mountDashboard origin encode (some u) ⟨d, some e⟩).2.toasts
      = [errorToast] ∧
    (mountDashboard origin encode (some u) ⟨none, none⟩).2.toasts
      = [] := by
  have hb : (e.code != "PGRST116") = true := by simpa [bne] using h
  refine ⟨?_, ?_, ?_, ?_, rfl⟩ <;>
    simp [mountDashboard, fetchMedicalProfile, isThrownError, hb,
      initialState, noEffects, renderDashboard, headerSection,
      profileOverviewSection, qrSection, summarySection,
      actionsSection]

/-- Witness for C10 at a concrete server error. -/
theorem fetch_failure_state_atomic_witness :
    (SupabaseError.mk "500" "down").code ≠ "PGRST116" ∧
    ((mountDashboard "https://qrupay.app" okEncoder (some sampleUser)
        ⟨some sampleProfile, some ⟨"500", "down"⟩⟩).1
      = ⟨none, "", false⟩ ∧
     renderDashboard "jane@example.com"
        (mountDashboard "https://qrupay.app" okEncoder
          (some sampleUser)
          ⟨some sampleProfile, some ⟨"500", "down"⟩⟩).1
      = renderDashboard "jane@example.com"
          (mountDashboard "https://qrupay.app" okEncoder
            (some sampleUser) ⟨none, none⟩).1 ∧
     RenderNode.button "Create Medical Profile" "/profile/edit" ∈
      renderDashboard "jane@example.com"
        (mountDashboard "https://qrupay.app" okEncoder
          (some sampleUser)
          ⟨some sampleProfile, some ⟨"500", "down"⟩⟩).1 ∧
     (mountDashboard "https://qrupay.app" okEncoder (some sampleUser)
        ⟨some sampleProfile, some ⟨"500", "down"⟩⟩).2.toasts
      = [errorToast] ∧
     (mountDashboard "https://qrupay.app" okEncoder (some sampleUser)
        ⟨none, none⟩).2.toasts = []) :=
  ⟨by decide,
   fetch_failure_state_atomic "https://qrupay.app" "jane@example.com"
     okEncoder sampleUser (some sampleProfile) ⟨"500", "down"⟩
     (by decide)⟩

/-- Blood-group erasure distributes over concatenation. -/
theorem withoutBloodGroup_append (xs ys : List RenderNode) :
    withoutBloodGroup (xs ++ ys)
      = withoutBloodGroup xs ++ withoutBloodGroup ys := by
  simp [withoutBloodGroup]

/-- The blood-group block is erased entirely. -/
theorem withoutBloodGroup_bloodGroupBlock (bg : Option String) :
    withoutBloodGroup (bloodGroupBlock bg) = [] := by
  cases bg with
  | none => rfl
  | some v =>
      by_cases hv : (v != "") = true
      · simp [bloodGroupBlock, hv, withoutBloodGroup]
      · simp [bloodGroupBlock, hv, withoutBloodGroup]

/-- The QR card carries no blood-group information. -/
theorem withoutBloodGroup_qrSection (mp : Option MedicalProfile) :
    withoutBloodGroup (qrSection mp) = qrSection mp := by
  cases mp with
  | none => rfl
  | some p =>
      by_cases hid : (p.id != "") = true
      · simp [qrSection, hid, withoutBloodGroup]
      · simp [qrSection, hid, withoutBloodGroup]

/-- The actions row carries no blood-group information. -/
theorem withoutBloodGroup_actionsSection (mp : Option MedicalProfile) :
    withoutBloodGroup (actionsSection mp) = actionsSection mp := by
  cases mp <;> rfl

/-- Claim C5: two runs on records that agree on everything but the
blood group render identically once the blood-group display is erased,
and produce the same QR payload — the derivation and every other
displayed field never read the blood group. -/
theorem blood_group_noninterference (origin email qr : String)
    (encode : String → QROptions → Except String String)
    (s : DashboardState) (p1 p2 : MedicalProfile)
    (h : { p1 with blood_group := none }
          = { p2 with blood_group := none }) :
    withoutBloodGroup (renderDashboard email ⟨some p1, qr, false⟩)
      = withoutBloodGroup (renderDashboard email ⟨some p2, qr, false⟩) ∧
    (generateQRCode origin encode p1.id s).2.encoderCalls.map Prod.fst
      = (generateQRCode origin encode p2.id
          s).2.encoderCalls.map Prod.fst := by
  obtain ⟨i1, b1, a1, c1, m1, n1, ph1, r1, ad1, q1⟩ := p1
  obtain ⟨i2, b2, a2, c2, m2, n2, ph2, r2, ad2, q2⟩ := p2
  simp only [MedicalProfile.mk.injEq] at h
  obtain ⟨hi, -, ha, hc, hm, hn, hph, hr, had, hq⟩ := h
  subst hi ha hc hm hn hph hr had hq
  refine ⟨?_, by simp [generateQRCode_encoderCalls]⟩
  simp only [renderDashboard, Bool.false_eq_true, if_false,
    profileOverviewSection, summarySection, withoutBloodGroup_append,
    withoutBloodGroup_bloodGroupBlock, withoutBloodGroup_qrSection,
    withoutBloodGroup_actionsSection]
  simp [withoutBloodGroup, headerSection, qrSection, actionsSection]

/-- Witness for C5: the sample profile with and without its blood
group. -/
theorem blood_group_noninterference_witness :
    ({ sampleProfile with blood_group := none }
        = { { sampleProfile with blood_group := none } with
              blood_group := none }) ∧
    (withoutBloodGroup (renderDashboard "jane@example.com"
        ⟨some sampleProfile, "", false⟩)
      = withoutBloodGroup (renderDashboard "jane@example.com"
          ⟨some { sampleProfile with blood_group := none }, "",
            false⟩) ∧
     (generateQRCode "https://qrupay.app" okEncoder sampleProfile.id
        initialState).2.encoderCalls.map Prod.fst
      = (generateQRCode "https://qrupay.app" okEncoder
          { sampleProfile with blood_group := none }.id
          initialState).2.encoderCalls.map Prod.fst) :=
  ⟨rfl,
   blood_group_noninterference "https://qrupay.app" "jane@example.com"
     "" okEncoder initialState sampleProfile
     { sampleProfile with blood_group := none } rfl⟩

end Qrupay
